import Mathlib

/-!
Shallow embedding of the turn-orchestration core of the Kalina
conversational assistant (React/TypeScript).

Sources embedded here (latest revision of each, matching the call sites in
`src/hooks/useChatHandler.ts`):
  * `src/hooks/useChatHandler.ts` — `handleSendMessage`, `handleRetry`,
    `handleExecuteImageGeneration`, `transformMessagesToHistory`;
  * `src/services/geminiService.ts` — `planResponse` (the revision at
    lines 627–693, the one with the web-search/thinking exclusivity
    post-processing described by the spec; the file also retains a
    superseded earlier copy at lines 135–194);
  * `src/App.tsx` — `getFriendlyErrorMessage` (lines 269–288) and the
    functional state updaters `updateConversation` /
    `updateConversationMessages` (lines 394–404).

Modelling conventions:
  * React `useState` state is a store of conversations; `setX(prev => ...)`
    updaters are applied in program order to the live store.  Plain reads of
    the `conversations` variable inside an async callback see the CLOSURE
    SNAPSHOT captured when the callback was created (before this turn's
    state updates), so the model threads both a `snapshot` and a `live`
    store where the code distinguishes them.
  * The generative-model API is an oracle: its results (plan JSON, stream
    chunks, extracted facts, …) are parameters.
  * JS strings are Lean `String`s; JS array `slice` is re-implemented with
    JS index clamping; the two regexes of the orchestrator are implemented
    character-by-character with JS regex semantics (greedy/lazy as in the
    source).
  * Message/conversation ids (`crypto.randomUUID()`) are `Nat` parameters;
    fields of the data model never inspected by the orchestration logic
    (citations, aspect ratio, token counters, …) are omitted.
-/

namespace Kalina

/-- Message role: `'user' | 'model'`. -/
inductive Role where
  | user
  | model
  deriving DecidableEq, Repr

/-- Attached image: `{ base64, mimeType }`. -/
structure ImageData where
  base64 : String
  mimeType : String
  deriving DecidableEq, Repr

/-- Attached file: `{ base64, mimeType, name }`. -/
structure FileData where
  base64 : String
  mimeType : String
  name : String
  deriving DecidableEq, Repr

/-- One simulated reasoning step of a plan (`types.ts` `ThoughtStep`). -/
structure ThoughtStep where
  phase : String
  step : String
  deriving DecidableEq, Repr

/-- `types.ts` `ChatMessage`, restricted to the fields the orchestrator
reads or writes.  Optional TS fields are `Option`s / defaulted `Bool`s. -/
structure ChatMsg where
  id : Nat
  role : Role
  content : String
  image : Option ImageData := none
  file : Option FileData := none
  thoughts : Option (List ThoughtStep) := none
  isPlanning : Bool := false
  isGeneratingImage : Bool := false
  isEditingImage : Bool := false
  generatedImagesBase64 : Option (List String) := none
  imageGenerationCount : Option Nat := none
  memoryUpdated : Bool := false
  deriving DecidableEq, Repr

/-- `types.ts` `Conversation` (fields used by the orchestrator). -/
structure Conversation where
  id : Nat
  title : String
  messages : List ChatMsg
  summary : Option String := none
  deriving DecidableEq, Repr

/-- `types.ts` `CodeSnippet`. -/
structure CodeSnippet where
  id : Nat
  description : String
  language : String
  code : String
  deriving DecidableEq, Repr

/-- The pinned tool selector (`types.ts` `Tool`; the `translator` value
never reaches `handleSendMessage`'s overrides and behaves like `smart`). -/
inductive Tool where
  | smart
  | webSearch
  | thinking
  | imageGeneration
  deriving DecidableEq, Repr

/-! ### JS string / array primitives -/

/-- Does `pat` occur at the head of `s`? (helper for substring search). -/
def hasPrefixChars : List Char → List Char → Bool
  | [], _ => true
  | _ :: _, [] => false
  | p :: ps, c :: cs => p == c && hasPrefixChars ps cs

/-- Does `pat` occur anywhere in `s`? (helper for `String.includes`). -/
def hasSubstrChars (pat : List Char) : List Char → Bool
  | [] => hasPrefixChars pat []
  | c :: cs => hasPrefixChars pat (c :: cs) || hasSubstrChars pat cs

/-- JS `s.includes(pat)`. -/
def strIncludes (s pat : String) : Bool :=
  hasSubstrChars pat.data s.data

/-- JS `s.toLowerCase()` (ASCII, which covers every keyword the code
searches for). -/
def strToLower (s : String) : String :=
  String.mk (s.data.map Char.toLower)

/-- Clamp a JS slice index to `[0, len]`. -/
def jsIndex (len : Nat) (i : Int) : Nat :=
  if i < 0 then (max ((len : Int) + i) 0).toNat else min i.toNat len

/-- JS `Array.prototype.slice(start, stop)` with negative-index clamping. -/
def jsSlice (l : List α) (start stop : Int) : List α :=
  let s := jsIndex l.length start
  let e := jsIndex l.length stop
  (l.drop s).take (e - s)

/-- JS `Array.prototype.slice(start)` (one-argument form). -/
def jsSliceFrom (l : List α) (start : Int) : List α :=
  l.drop (jsIndex l.length start)

/-- JS `\s` on the characters this program feeds it (ASCII whitespace). -/
def jsWhitespace (c : Char) : Bool :=
  c == ' ' || c == '\t' || c == '\n' || c == '\r' || c == '\x0b' || c == '\x0c'

/-- JS `s.trim()` used on prompts and contents (ASCII whitespace). -/
def strTrim (s : String) : String :=
  String.mk (((s.data.dropWhile jsWhitespace).reverse.dropWhile jsWhitespace).reverse)

/-! ### Planner Adapter — `planResponse` (`geminiService.ts` 627–693) -/

/-- The plan object parsed from the planner model's JSON (`result` after
`JSON.parse`); `thoughts` may be absent (`result.thoughts || []`). -/
structure RawPlan where
  needsWebSearch : Bool
  needsThinking : Bool
  needsCodeContext : Bool
  isImageGenerationRequest : Bool
  isImageEditRequest : Bool
  thoughts : Option (List ThoughtStep)
  deriving DecidableEq, Repr

/-- `geminiService.ts` `ResponsePlan`. -/
structure ResponsePlan where
  needsWebSearch : Bool
  needsThinking : Bool
  needsCodeContext : Bool
  isImageGenerationRequest : Bool
  isImageEditRequest : Bool
  thoughts : List ThoughtStep
  deriving DecidableEq, Repr

/-- The planner upstream: either the parsed JSON plan, or a thrown
error / unparseable output (anything that lands in the `catch`). -/
def PlannerOutcome := Except String RawPlan

/-- The fallback plan built in `planResponse`'s `catch` block
(`geminiService.ts` 682–691): web search on, thinking off, code context
on, image flags from the prompt keywords / attached image, no thoughts. -/
def fallbackPlan (prompt : String) (image : Option ImageData) : ResponsePlan :=
  let needsWebSearch := true
  { needsWebSearch := needsWebSearch
    needsThinking := !needsWebSearch
    needsCodeContext := true
    isImageGenerationRequest :=
      image.isNone &&
        (strIncludes (strToLower prompt) "generate" ||
         strIncludes (strToLower prompt) "create")
    isImageEditRequest := image.isSome
    thoughts := [] }

/-- `planResponse` (`geminiService.ts` 627–693).  On a parsed result it
forces `needsThinking := false` and clears `thoughts` whenever
`needsWebSearch` is set (lines 672–676), then defaults missing `thoughts`
to `[]`; on any upstream failure it returns `fallbackPlan`.  Total: it
never throws. -/
def planResponse (raw : Except String RawPlan) (prompt : String)
    (image : Option ImageData) : ResponsePlan :=
  match raw with
  | .ok result =>
      let result :=
        if result.needsWebSearch then
          { result with needsThinking := false, thoughts := some [] }
        else result
      { needsWebSearch := result.needsWebSearch
        needsThinking := result.needsThinking
        needsCodeContext := result.needsCodeContext
        isImageGenerationRequest := result.isImageGenerationRequest
        isImageEditRequest := result.isImageEditRequest
        thoughts := result.thoughts.getD [] }
  | .error _ => fallbackPlan prompt image

/-! ### Tool override resolution (`useChatHandler.ts` 151–171) -/

/-- The four `let` mutables of `handleSendMessage` after the
`selectedTool` override block. -/
structure ResolvedFlags where
  isThinkingEnabled : Bool
  isWebSearchEnabled : Bool
  isImageGeneration : Bool
  isImageEdit : Bool
  deriving DecidableEq, Repr

/-- Lines 151–171: initialise the flags from the plan, then apply the
pinned-tool override. -/
def resolveToolOverride (plan : ResponsePlan) (selectedTool : Tool)
    (image : Option ImageData) : ResolvedFlags :=
  let base : ResolvedFlags :=
    { isThinkingEnabled := plan.needsThinking
      isWebSearchEnabled := plan.needsWebSearch
      isImageGeneration := image.isNone && plan.isImageGenerationRequest
      isImageEdit := image.isSome && plan.isImageEditRequest }
  match selectedTool with
  | .imageGeneration =>
      { isImageGeneration := image.isNone
        isImageEdit := image.isSome
        isWebSearchEnabled := false
        isThinkingEnabled := false }
  | .thinking =>
      { base with
        isThinkingEnabled := true
        isWebSearchEnabled := false
        isImageGeneration := false
        isImageEdit := false }
  | .webSearch =>
      { base with
        isWebSearchEnabled := true
        isImageGeneration := false
        isImageEdit := false
        isThinkingEnabled := false }
  | .smart => base

/-! ### Context Assembler — `transformMessagesToHistory`
(`useChatHandler.ts` 18–36) -/

/-- One entry of a `Content.parts` array sent to the model: a text part or
an `inlineData` part. -/
inductive HistPart where
  | text (s : String)
  | inlineData (data mimeType : String)
  deriving DecidableEq, Repr

/-- A `Content` object: role plus parts. -/
structure HistContent where
  role : Role
  parts : List HistPart
  deriving DecidableEq, Repr

/-- Line 19's filter: drop model messages with blank content and no image
and no generated images (`!(m.role === 'model' && !m.content?.trim() &&
!m.image && !m.generatedImagesBase64)`). -/
def isValidMessage (m : ChatMsg) : Bool :=
  !(m.role == .model && strTrim m.content == "" && m.image.isNone &&
    m.generatedImagesBase64.isNone)

/-- Lines 21–30: each truthy field becomes one part, text first. -/
def msgParts (m : ChatMsg) : List HistPart :=
  (if m.content == "" then [] else [HistPart.text m.content]) ++
  (match m.image with
   | some i => [HistPart.inlineData i.base64 i.mimeType]
   | none => []) ++
  (match m.file with
   | some f => [HistPart.inlineData f.base64 f.mimeType]
   | none => [])

/-- `transformMessagesToHistory` (lines 18–36): filter valid messages, map
to role+parts, drop part-less results. -/
def transformMessagesToHistory (msgs : List ChatMsg) : List HistContent :=
  (((msgs.filter isValidMessage).map
      (fun m => ({ role := m.role, parts := msgParts m } : HistContent))).filter
    (fun c => !c.parts.isEmpty))

/-! ### The two orchestrator regexes -/

/-- JS `\w` (ASCII word character). -/
def isWordChar (c : Char) : Bool :=
  ('a' ≤ c && c ≤ 'z') || ('A' ≤ c && c ≤ 'Z') || ('0' ≤ c && c ≤ '9') || c == '_'

/-- Lazy `([\s\S]*?)` followed by a literal ``` fence: split `body` at the
EARLIEST closing fence, returning the captured code and the rest;
`none` when no closing fence exists (the regex match fails). -/
def findCloseFence : List Char → Option (List Char × List Char)
  | '`' :: '`' :: '`' :: rest => some ([], rest)
  | c :: rest =>
      (findCloseFence rest).map (fun p => (c :: p.1, p.2))
  | [] => none

/-- Try to match ``` ```(\w+)?\n([\s\S]*?)``` ``` at the head of `s`.
Returns (language group, code group, remainder after the match).  The
optional `(\w+)?` is greedy; since a word char can never satisfy the
following literal `\n`, it matches exactly the maximal word-char run (or
is skipped when that run is empty). -/
def matchCodeBlockAt (s : List Char) :
    Option (Option (List Char) × List Char × List Char) :=
  match s with
  | '`' :: '`' :: '`' :: rest =>
      let w := rest.takeWhile isWordChar
      match rest.dropWhile isWordChar with
      | '\n' :: body =>
          (findCloseFence body).map
            (fun p => (if w.isEmpty then none else some w, p.1, p.2))
      | _ => none
  | _ => none

/-- The `while ((match = codeBlockRegex.exec(...)))` loop of
`useChatHandler.ts` 314–321: repeatedly find the leftmost match from the
current position, emit its two groups, continue after the match.  `fuel`
bounds the recursion (a match consumes at least seven characters, so
`s.length` fuel always suffices). -/
def scanCodeBlocks : Nat → List Char → List (Option (List Char) × List Char)
  | 0, _ => []
  | _, [] => []
  | fuel + 1, c :: rest =>
      match matchCodeBlockAt (c :: rest) with
      | some (lang, code, rest') => (lang, code) :: scanCodeBlocks fuel rest'
      | none => scanCodeBlocks fuel rest

/-- All fenced code blocks of `s` as (language, code) pairs with the
`match[1] || 'text'` language default applied (lines 317–320). -/
def extractCodeBlocks (s : String) : List (String × String) :=
  (scanCodeBlocks s.data.length s.data).map
    (fun p => ((p.1.map String.mk).getD "text", String.mk p.2))

/-- The capture of `/^\s*TITLE:\s*([^\n]+)/` applied to `s` (stream-loop
title extraction, `useChatHandler.ts` 271).  The inner greedy `\s*` backs
off just enough for `[^\n]+` to find a first non-newline character. -/
def titleRegexCapture (s : String) : Option String :=
  let rest := (s.data.dropWhile jsWhitespace)
  if hasPrefixChars "TITLE:".data rest then
    let tail := (rest.drop 6)
    let ws := tail.takeWhile jsWhitespace
    match tail.dropWhile jsWhitespace with
    | c :: cs => some (String.mk ((c :: cs).takeWhile (fun ch => ch ≠ '\n')))
    | [] =>
        match (ws.reverse.takeWhile (fun ch => ch ≠ '\n')).reverse with
        | [] => none
        | c :: cs => some (String.mk ((c :: cs).takeWhile (fun ch => ch ≠ '\n')))
  else none

/-- JS `s.replace(/^\s*TITLE:\s*[^\n]*\n?/, '')` (strip a leading title
directive; `useChatHandler.ts` 279 and 306). -/
def stripTitleDirective (s : String) : String :=
  let rest := s.data.dropWhile jsWhitespace
  if hasPrefixChars "TITLE:".data rest then
    let r1 := (rest.drop 6).dropWhile jsWhitespace
    let r2 := r1.dropWhile (fun ch => ch ≠ '\n')
    match r2 with
    | '\n' :: t => String.mk t
    | _ => String.mk r2
  else s

/-! ### Store updaters (`App.tsx` 394–404) and error translation
(`App.tsx` 269–288) -/

/-- `updateConversation`: functional update keyed by conversation id. -/
def updateConv (store : List Conversation) (cid : Nat)
    (f : Conversation → Conversation) : List Conversation :=
  store.map (fun c => if c.id == cid then f c else c)

/-- `updateConversationMessages`. -/
def updateConvMessages (store : List Conversation) (cid : Nat)
    (f : List ChatMsg → List ChatMsg) : List Conversation :=
  updateConv store cid (fun c => { c with messages := f c.messages })

/-- `conversations.find(c => c.id === id)`. -/
def findConv (store : List Conversation) (cid : Nat) : Option Conversation :=
  store.find? (fun c => c.id == cid)

/-- `newMessages[newMessages.length - 1] = { ...last, ... }` on a
non-empty list (identity on an empty one). -/
def setLastMsg (msgs : List ChatMsg) (f : ChatMsg → ChatMsg) : List ChatMsg :=
  match msgs.getLast? with
  | some last => msgs.dropLast ++ [f last]
  | none => msgs

/-- `getFriendlyErrorMessage` (`App.tsx` 269–288): ordered substring
classification of the raw error text. -/
def getFriendlyErrorMessage (message : String) : String :=
  if strIncludes message "API key not valid" ||
     strIncludes (strToLower message) "permission denied" ||
     strIncludes message "API_KEY" then
    "Your API key is invalid or not configured correctly. Please check your .env file."
  else if strIncludes message "429" then
    "You have exceeded your API quota. Please check your Google AI Studio account."
  else if strIncludes (strToLower message) "fetch" ||
          strIncludes (strToLower message) "network" then
    "Could not connect to the service. Please check your internet connection and try again."
  else if strIncludes message "timed out" then
    "The request timed out. Please try again."
  else
    "An unexpected error occurred. Please try again later."

/-! ### The `catch` block's message updater (`useChatHandler.ts` 342–351) -/

/-- The functional updater passed to `updateConversationMessages` in
`handleSendMessage`'s `catch`: overwrite the last message's content with
the error string and clear its transient flags; if that last message was
a user message, additionally push a fresh model message carrying the same
error string. -/
def catchUpdateMessages (prev : List ChatMsg) (newId : Nat)
    (friendly : String) : List ChatMsg :=
  match prev.getLast? with
  | none => prev
  | some lastMessage =>
      let errText := "Sorry, I encountered an error: " ++ friendly
      let overwritten := prev.dropLast ++
        [{ lastMessage with
            isPlanning := false
            isGeneratingImage := false
            isEditingImage := false
            content := errText }]
      if lastMessage.role == .user then
        overwritten ++ [{ id := newId, role := .model, content := errText }]
      else overwritten

/-! ### Background memory extraction continuation
(`useChatHandler.ts` 324–336) -/

/-- Result of the LTM continuation: the new LTM and whether anything was
appended (which also drives the `memoryUpdated` marking). -/
structure MemoryJobResult where
  ltm : List String
  memoryFlagSet : Bool
  deriving DecidableEq, Repr

/-- The `.then(newMemories => …)` continuation of `updateMemory`: filter
the extracted facts against the turn's LTM (`!ltm.includes(mem)`) and
append the survivors. -/
def applyMemoryExtraction (ltm newMemories : List String) : MemoryJobResult :=
  if newMemories.length > 0 then
    let uniqueNewMemories := newMemories.filter (fun mem => !ltm.contains mem)
    if uniqueNewMemories.length > 0 then
      { ltm := ltm ++ uniqueNewMemories, memoryFlagSet := true }
    else { ltm := ltm, memoryFlagSet := false }
  else { ltm := ltm, memoryFlagSet := false }

/-! ### Background enrichment scheduling (`useChatHandler.ts` 306–338) -/

/-- Arguments handed to `summarizeConversation`. -/
structure SummarizeRequest where
  history : List HistContent
  previousSummary : Option String
  deriving DecidableEq, Repr

/-- What the post-stream block schedules, given the conversation object it
read (`finalConversationState`) and the cleaned final response. -/
structure EnrichmentRequests where
  summarize : Option SummarizeRequest
  codeBlocks : List (String × String)
  memoryRequested : Bool
  deriving DecidableEq, Repr

/-- Lines 308–337: summarize iff `messages.length > 1 &&
messages.length % 6 === 0` (over `finalConversationState.messages`),
passing `slice(-6)` of those messages; extract every fenced code block of
the cleaned response; request fact extraction iff the cleaned response is
non-blank. -/
def scheduleEnrichment (finalConversationState : Conversation)
    (finalCleanedResponse : String) : EnrichmentRequests :=
  { summarize :=
      if finalConversationState.messages.length > 1 &&
         finalConversationState.messages.length % 6 == 0 then
        some { history := transformMessagesToHistory
                 (jsSliceFrom finalConversationState.messages (-6))
               previousSummary := finalConversationState.summary }
      else none
    codeBlocks := extractCodeBlocks finalCleanedResponse
    memoryRequested := !(strTrim finalCleanedResponse == "") }

/-- The `.then(newSummary => …)` continuation of `summarizeConversation`:
overwrite the conversation's summary field. -/
def applySummarizeResult (store : List Conversation) (cid : Nat)
    (newSummary : String) : List Conversation :=
  updateConv store cid (fun c => { c with summary := some newSummary })

/-! ### The composed turn model — `handleSendMessage`
(`useChatHandler.ts` 123–357)

The model threads the LIVE store (receiving every `set…(prev => …)`
functional update in program order) separately from the CLOSURE SNAPSHOT
`env.conversations` that plain reads of the `conversations` variable see:
the snapshot predates this turn's own updates.  On an ordinary send the
live store and the snapshot coincide; after `handleRetry`'s truncation
they differ.  Cosmetic per-tick timer writes (`thinkingDuration`), chunk
`sources`, token-usage counters and the `isGeneratingTitle` flag are not
modelled; whether the duration ticker / search indicator were started is
recorded as outcome booleans. -/

/-- One streamed chunk (its text delta). -/
structure Chunk where
  text : String
  deriving DecidableEq, Repr

/-- `editImage`'s fulfilled value (fields the orchestrator reads). -/
structure EditResult where
  textResponse : Option String
  editedImageBase64 : Option String
  deriving DecidableEq, Repr

/-- Closure state/settings of one `handleSendMessage` invocation. -/
structure SendEnv where
  conversations : List Conversation
  activeConversationId : Option Nat
  ltm : List String
  codeMemory : List CodeSnippet
  selectedTool : Tool
  isLoading : Bool
  hasApiKey : Bool
  deriving Repr

/-- The `crypto.randomUUID()` draws of the turn (ids are opaque). -/
structure SendIds where
  newConvId : Nat
  userMsgId : Nat
  planningMsgId : Nat
  streamMsgId : Nat
  errorMsgId : Nat
  deriving Repr

/-- Oracle results from the model API for this turn.  The stream is the
list of chunks actually delivered, followed by `streamError` if iteration
then throws. -/
structure SendOracles where
  planRaw : Except String RawPlan
  editResult : Except String EditResult
  relevantIds : List Nat
  chunks : List Chunk
  streamError : Option String
  deriving Repr

/-- Everything observable at the end of the invocation. -/
structure TurnOutcome where
  store : List Conversation
  activeConversationId : Option Nat
  isLoading : Bool
  errorMessage : Option String
  imageOptionsOpened : Bool
  imageGenPrompt : Option String
  thinkingTimerStarted : Bool
  searchingIndicatorSet : Bool
  historySent : Option (List HistContent)
  retrievedSnippets : List CodeSnippet
  enrichment : Option EnrichmentRequests
  deriving DecidableEq, Repr

/-- The guard's reject / retry's silent no-op: nothing changes, nothing is
scheduled. -/
def unchangedOutcome (env : SendEnv) (live : List Conversation) : TurnOutcome :=
  { store := live
    activeConversationId := env.activeConversationId
    isLoading := env.isLoading
    errorMessage := none
    imageOptionsOpened := false
    imageGenPrompt := none
    thinkingTimerStarted := false
    searchingIndicatorSet := false
    historySent := none
    retrievedSnippets := []
    enrichment := none }

/-- Loop state of the `for await (const chunk of stream)` body. -/
structure StreamState where
  store : List Conversation
  acc : String
  titleExtracted : Bool
  deriving Repr

/-- The first-turn title-extraction step of the stream loop
(`useChatHandler.ts` 269–280): returns the (possibly title-updated)
store, the updated `titleExtracted` flag and the display content. -/
def processChunkTitle (cid : Nat) (isFirstTurn : Bool) (st : StreamState)
    (acc : String) : List Conversation × Bool × String :=
  if isFirstTurn then
    match titleRegexCapture acc, st.titleExtracted with
    | some g, false =>
        (updateConv st.store cid (fun c => { c with title := strTrim g }),
         true, stripTitleDirective acc)
    | some _, true => (st.store, true, stripTitleDirective acc)
    | none, te =>
        if acc.length > 50 && !strIncludes acc "TITLE:" then
          (st.store, true, stripTitleDirective acc)
        else (st.store, te, stripTitleDirective acc)
  else (st.store, st.titleExtracted, acc)

/-- One iteration of the stream loop (`useChatHandler.ts` 255–294):
accumulate the delta, run first-turn title extraction/stripping
(`processChunkTitle`), and write the display content into the trailing
model message (appending a fresh model message when the conversation
unexpectedly ends in a user message). -/
def processChunk (cid : Nat) (isFirstTurn : Bool) (streamMsgId : Nat)
    (st : StreamState) (ch : Chunk) : StreamState :=
  let acc := st.acc ++ ch.text
  let step := processChunkTitle cid isFirstTurn st acc
  let store1 := step.1
  let titleExtracted := step.2.1
  let displayContent := step.2.2
  let store2 := updateConvMessages store1 cid (fun prevMessages =>
    match prevMessages.getLast? with
    | some lastMessage =>
        if lastMessage.role == .model then
          prevMessages.dropLast ++
            [{ lastMessage with
                content := displayContent
                isPlanning := false
                isGeneratingImage := false }]
        else
          prevMessages ++
            [{ id := streamMsgId, role := .model, content := displayContent }]
    | none =>
        prevMessages ++
          [{ id := streamMsgId, role := .model, content := displayContent }])
  { store := store2, acc := acc, titleExtracted := titleExtracted }

/-- The `catch`-plus-`finally` tail shared by the failure exits. -/
def catchOutcome (storeAtThrow : List Conversation)
    (cid : Nat) (errorMsgId : Nat) (rawError : String)
    (thinkingStarted searching : Bool) : TurnOutcome :=
  let friendly := getFriendlyErrorMessage rawError
  { store := updateConvMessages storeAtThrow cid
      (fun prev => catchUpdateMessages prev errorMsgId friendly)
    activeConversationId := some cid
    isLoading := false
    errorMessage := some friendly
    imageOptionsOpened := false
    imageGenPrompt := none
    thinkingTimerStarted := thinkingStarted
    searchingIndicatorSet := searching
    historySent := none
    retrievedSnippets := []
    enrichment := none }

/-- `handleSendMessage` (`useChatHandler.ts` 123–357), as a function of
the closure environment, the live store, the id draws, the oracles and
the call arguments. -/
def handleSendMessage (env : SendEnv) (live : List Conversation)
    (ids : SendIds) (orc : SendOracles) (prompt : String)
    (image : Option ImageData) (file : Option FileData) : TurnOutcome :=
  let fullPrompt := prompt
  if (strTrim fullPrompt == "" && image.isNone && file.isNone) ||
     env.isLoading || !env.hasApiKey then
    unchangedOutcome env live
  else
    let ensured : List Conversation × Nat × Bool :=
      match env.activeConversationId with
      | none =>
          (({ id := ids.newConvId, title := "New Chat", messages := []
              summary := none } : Conversation) :: live,
           ids.newConvId, true)
      | some cid =>
          (live, cid,
           ((findConv env.conversations cid).map
              (fun c => c.messages.length == 0)).getD false)
    let store0 := ensured.1
    let cid := ensured.2.1
    let isFirstTurn := ensured.2.2
    let userMsg : ChatMsg :=
      { id := ids.userMsgId, role := .user, content := fullPrompt
        image := image, file := file }
    let planningMsg : ChatMsg :=
      { id := ids.planningMsgId, role := .model, content := ""
        isPlanning := true }
    let store1 := updateConvMessages store0 cid
      (fun prev => prev ++ [userMsg, planningMsg])
    let plan := planResponse orc.planRaw fullPrompt image
    let flags := resolveToolOverride plan env.selectedTool image
    let store2 :=
      if isFirstTurn && flags.isImageGeneration then
        updateConv store1 cid (fun c => { c with title := "Image Generation" })
      else store1
    if flags.isImageEdit && image.isSome then
      let store3 := updateConvMessages store2 cid (fun prev =>
        setLastMsg prev (fun last =>
          { last with
              isPlanning := false
              isEditingImage := true
              imageGenerationCount := some 1 }))
      match orc.editResult with
      | .ok result =>
          let store4 := updateConvMessages store3 cid (fun prev =>
            setLastMsg prev (fun last =>
              { last with
                  isEditingImage := false
                  content := result.textResponse.getD ""
                  generatedImagesBase64 :=
                    result.editedImageBase64.map (fun b => [b]) }))
          { store := store4
            activeConversationId := some cid
            isLoading := false
            errorMessage := none
            imageOptionsOpened := false
            imageGenPrompt := none
            thinkingTimerStarted := false
            searchingIndicatorSet := false
            historySent := none
            retrievedSnippets := []
            enrichment := none }
      | .error e => catchOutcome store3 cid ids.errorMsgId e false false
    else if flags.isImageGeneration then
      let store3 := updateConvMessages store2 cid (fun prev => jsSlice prev 0 (-1))
      { store := store3
        activeConversationId := some cid
        isLoading := false
        errorMessage := none
        imageOptionsOpened := true
        imageGenPrompt := some fullPrompt
        thinkingTimerStarted := false
        searchingIndicatorSet := false
        historySent := none
        retrievedSnippets := []
        enrichment := none }
    else
      let store3 := updateConvMessages store2 cid (fun prev =>
        match prev.getLast? with
        | some last =>
            if last.isPlanning then
              prev.dropLast ++
                [{ last with isPlanning := false, thoughts := some plan.thoughts }]
            else prev
        | none => prev)
      let thinkingStarted := flags.isThinkingEnabled && plan.thoughts.length > 0
      let searching := flags.isWebSearchEnabled
      let currentConversationState := findConv env.conversations cid
      let lastFourMessages :=
        match currentConversationState with
        | some c => jsSlice c.messages (-5) (-1)
        | none => []
      let retrieved :=
        if plan.needsCodeContext && env.codeMemory.length > 0 then
          env.codeMemory.filter (fun s => orc.relevantIds.contains s.id)
        else []
      let historySent := transformMessagesToHistory lastFourMessages
      if image.isNone && file.isNone && fullPrompt == "" then
        catchOutcome store3 cid ids.errorMsgId
          "Cannot send an empty message." thinkingStarted searching
      else
        let stN := orc.chunks.foldl
          (processChunk cid isFirstTurn ids.streamMsgId)
          { store := store3, acc := "", titleExtracted := false }
        match orc.streamError with
        | some err =>
            catchOutcome stN.store cid ids.errorMsgId err
              thinkingStarted searching
        | none =>
            let finalCleanedResponse := stripTitleDirective stN.acc
            let finalConversationState := findConv env.conversations cid
            { store := stN.store
              activeConversationId := some cid
              isLoading := false
              errorMessage := none
              imageOptionsOpened := false
              imageGenPrompt := none
              thinkingTimerStarted := thinkingStarted
              searchingIndicatorSet := searching
              historySent := some historySent
              retrievedSnippets := retrieved
              enrichment := finalConversationState.map
                (fun c => scheduleEnrichment c finalCleanedResponse) }

/-! ### `handleExecuteImageGeneration` (`useChatHandler.ts` 75–121) -/

/-- Observable outcome of the confirmed image-generation action. -/
structure ExecOutcome where
  store : List Conversation
  isLoading : Bool
  errorMessage : Option String
  imageOptionsOpen : Bool
  generatedImagesAppended : List String
  deriving DecidableEq, Repr

/-- `handleExecuteImageGeneration`: bail out silently without a key or an
active conversation; otherwise decide `shouldGenerateTitle` from the
CLOSURE conversation list, append the `isGeneratingImage` placeholder, and
on success fill it with the images and (iff the conversation was empty at
entry) set the title to the fixed string `"Image Generation"`; on failure
overwrite the placeholder with the error string.  (`aspectRatio` on the
placeholder and the gallery list are outside the modelled fields.) -/
def handleExecuteImageGeneration (hasApiKey : Bool)
    (activeConversationId : Option Nat) (conversations : List Conversation)
    (count : Nat) (msgId : Nat)
    (genResult : Except String (List String)) : ExecOutcome :=
  match activeConversationId, hasApiKey with
  | some cid, true =>
      let conversationForTitle := findConv conversations cid
      let shouldGenerateTitle :=
        ((conversationForTitle.map (fun c => c.messages.length == 0)).getD false)
      let store1 := updateConvMessages conversations cid (fun prev =>
        prev ++ [{ id := msgId, role := .model, content := ""
                   isGeneratingImage := true
                   imageGenerationCount := some count }])
      match genResult with
      | .ok imgs =>
          let store2 := updateConvMessages store1 cid (fun prev =>
            setLastMsg prev (fun last =>
              { last with
                  isGeneratingImage := false
                  generatedImagesBase64 := some imgs }))
          let store3 :=
            if shouldGenerateTitle then
              updateConv store2 cid (fun c => { c with title := "Image Generation" })
            else store2
          { store := store3, isLoading := false, errorMessage := none
            imageOptionsOpen := false, generatedImagesAppended := imgs }
      | .error e =>
          let friendly := getFriendlyErrorMessage e
          let store2 := updateConvMessages store1 cid (fun prev =>
            setLastMsg prev (fun last =>
              { last with
                  isGeneratingImage := false
                  content := "Sorry, I encountered an error: " ++ friendly }))
          { store := store2, isLoading := false, errorMessage := some friendly
            imageOptionsOpen := false, generatedImagesAppended := [] }
  | _, _ =>
      { store := conversations, isLoading := false, errorMessage := none
        imageOptionsOpen := false, generatedImagesAppended := [] }

/-! ### `handleRetry` (`useChatHandler.ts` 365–377) -/

/-- What a non-no-op retry does: the truncation index and the resubmitted
user payload. -/
structure RetryAction where
  lastModelMessageIndex : Nat
  content : String
  image : Option ImageData
  file : Option FileData
  deriving DecidableEq, Repr

/-- `findLastIndex(m => m.role === 'model')`. -/
def findLastModelIdx (msgs : List ChatMsg) : Option Nat :=
  ((List.range msgs.length).reverse).find?
    (fun i => ((msgs[i]?).map (fun m => m.role == Role.model)).getD false)

/-- The decision part of `handleRetry`: locate the most recent model
message; require the message just before it to exist (index `-1` reads
`undefined` in JS) and to be a user message; otherwise no-op. -/
def retryAction (msgs : List ChatMsg) : Option RetryAction :=
  if msgs.length == 0 then none
  else
    match findLastModelIdx msgs with
    | none => none
    | some i =>
        if i == 0 then none
        else
          match msgs[i - 1]? with
          | some u =>
              if u.role == .user then
                some { lastModelMessageIndex := i, content := u.content
                       image := u.image, file := u.file }
              else none
          | none => none

/-- The truncation `prev => prev.slice(0, lastModelMessageIndex)`. -/
def retryTruncate (msgs : List ChatMsg) (a : RetryAction) : List ChatMsg :=
  jsSlice msgs 0 (a.lastModelMessageIndex : Int)

/-- `handleRetry` composed with the resubmission: the truncating update
hits the live store, then `handleSendMessage` runs with the SAME closure
snapshot both callbacks were created from (pre-truncation). -/
def handleRetryTurn (env : SendEnv) (ids : SendIds) (orc : SendOracles) :
    TurnOutcome :=
  match env.activeConversationId.bind (fun cid => findConv env.conversations cid) with
  | none => unchangedOutcome env env.conversations
  | some conv =>
      match retryAction conv.messages with
      | none => unchangedOutcome env env.conversations
      | some a =>
          let live := updateConvMessages env.conversations conv.id
            (fun prev => jsSlice prev 0 (a.lastModelMessageIndex : Int))
          handleSendMessage env live ids orc a.content a.image a.file

/-- The streaming-path store invariant: conversation `cid` holds `base`
followed by exactly one trailing model message. -/
def lastIsModelShape (store : List Conversation) (cid : Nat)
    (base : List ChatMsg) : Prop :=
  ∃ cv lm, findConv store cid = some cv ∧ cv.messages = base ++ [lm] ∧
    lm.role = Role.model

/-! ### Concrete fixtures used by counterexamples and witnesses -/

/-- A user message with just an id and text. -/
def uMsg (i : Nat) (s : String) : ChatMsg :=
  { id := i, role := .user, content := s }

/-- A model message with just an id and text. -/
def mMsg (i : Nat) (s : String) : ChatMsg :=
  { id := i, role := .model, content := s }

/-- A fixed draw of `crypto.randomUUID()` values. -/
def testIds : SendIds :=
  { newConvId := 100, userMsgId := 101, planningMsgId := 102
    streamMsgId := 103, errorMsgId := 104 }

/-- A parsed planner result with every routing flag off. -/
def planAllFalse : RawPlan :=
  { needsWebSearch := false, needsThinking := false, needsCodeContext := false
    isImageGenerationRequest := false, isImageEditRequest := false
    thoughts := none }

/-- Oracles for a plain successful streaming turn answering `reply`. -/
def plainOracles (reply : String) : SendOracles :=
  { planRaw := .ok planAllFalse
    editResult := .error "unused"
    relevantIds := []
    chunks := [{ text := reply }]
    streamError := none }

/-- A six-message conversation (three completed turns), id 1. -/
def conv6 : Conversation :=
  { id := 1, title := "T"
    messages := [uMsg 1 "q1", mMsg 2 "a1", uMsg 3 "q2", mMsg 4 "a2",
                 uMsg 5 "q3", mMsg 6 "a3"] }

/-- Environment whose active conversation is `conv6`. -/
def env6 : SendEnv :=
  { conversations := [conv6], activeConversationId := some 1
    ltm := [], codeMemory := [], selectedTool := .smart
    isLoading := false, hasApiKey := true }

/-- A one-turn conversation (user question, model answer), id 1. -/
def conv2 : Conversation :=
  { id := 1, title := "T", messages := [uMsg 1 "hi", mMsg 2 "first answer"] }

/-- Environment whose active conversation is `conv2`. -/
def env2 : SendEnv :=
  { conversations := [conv2], activeConversationId := some 1
    ltm := [], codeMemory := [], selectedTool := .smart
    isLoading := false, hasApiKey := true }

/-- An empty conversation, id 1. -/
def convEmpty : Conversation :=
  { id := 1, title := "New Chat", messages := [] }

/-- Environment whose active conversation is empty. -/
def envEmpty : SendEnv :=
  { conversations := [convEmpty], activeConversationId := some 1
    ltm := [], codeMemory := [], selectedTool := .smart
    isLoading := false, hasApiKey := true }

/-- A parsed planner result asking for image generation. -/
def planImageGen : RawPlan :=
  { planAllFalse with isImageGenerationRequest := true }

/-- Oracles for a turn that resolves to the image-generation handoff. -/
def genOracles : SendOracles :=
  { planRaw := .ok planImageGen
    editResult := .error "unused"
    relevantIds := []
    chunks := []
    streamError := none }

/-! ## Shared lemmas -/

/-- Any plan `planResponse` returns with `needsWebSearch = true` has
thinking forced off and an empty thoughts list (post-processing on the
success path, construction on the fallback path). -/
theorem planResponse_webSearch_forces_noThinking (raw : Except String RawPlan)
    (prompt : String) (image : Option ImageData)
    (h : (planResponse raw prompt image).needsWebSearch = true) :
    (planResponse raw prompt image).needsThinking = false ∧
    (planResponse raw prompt image).thoughts = [] := by
  cases raw with
  | ok r =>
      by_cases hw : r.needsWebSearch
      · simp [planResponse, hw]
      · simp [planResponse, hw] at h
  | error e => simp [planResponse, fallbackPlan]

/-- `conversations.find` after a messages-update keyed by the same id. -/
theorem findConv_updateConvMessages (store : List Conversation) (cid : Nat)
    (f : List ChatMsg → List ChatMsg) :
    findConv (updateConvMessages store cid f) cid =
      (findConv store cid).map (fun c => { c with messages := f c.messages }) := by
  induction store with
  | nil => rfl
  | cons c cs ih =>
      by_cases h : c.id == cid
      · have h2 : c.id = cid := by simpa using h
        simp [findConv, updateConvMessages, updateConv, List.find?_cons, h2]
      · simp only [findConv, updateConvMessages, updateConv, List.map_cons] at ih ⊢
        rw [if_neg (by simpa using h)]
        rw [List.find?_cons, List.find?_cons]
        simp only [h]
        exact ih

/-- `conversations.find` after an id-preserving conversation update. -/
theorem findConv_updateConv_of_id (store : List Conversation) (cid : Nat)
    (f : Conversation → Conversation) (hf : ∀ c, (f c).id = c.id) :
    findConv (updateConv store cid f) cid = (findConv store cid).map f := by
  induction store with
  | nil => rfl
  | cons c cs ih =>
      by_cases h : c.id == cid
      · have h2 : c.id = cid := by simpa using h
        simp [findConv, updateConv, List.find?_cons, h2, hf]
      · simp only [findConv, updateConv, List.map_cons] at ih ⊢
        rw [if_neg (by simpa using h)]
        rw [List.find?_cons, List.find?_cons]
        simp only [h]
        exact ih

/-- The title step touches at most the conversation's title. -/
theorem processChunkTitle_store_cases (cid : Nat) (isFirst : Bool)
    (st : StreamState) (acc : String) :
    (processChunkTitle cid isFirst st acc).1 = st.store ∨
    ∃ t, (processChunkTitle cid isFirst st acc).1 =
      updateConv st.store cid (fun c => { c with title := t }) := by
  unfold processChunkTitle
  split
  · split
    · exact Or.inr ⟨_, rfl⟩
    · exact Or.inl rfl
    · split
      · exact Or.inl rfl
      · exact Or.inl rfl
  · exact Or.inl rfl

/-- A title rewrite preserves the trailing-model-message shape. -/
theorem lastIsModelShape_title_update (store : List Conversation) (cid : Nat)
    (base : List ChatMsg) (t : String)
    (h : lastIsModelShape store cid base) :
    lastIsModelShape (updateConv store cid (fun c => { c with title := t }))
      cid base := by
  obtain ⟨cv, lm, hfind, hmsgs, hrole⟩ := h
  refine ⟨{ cv with title := t }, lm, ?_, hmsgs, hrole⟩
  rw [findConv_updateConv_of_id store cid
    (fun c => { c with title := t }) (fun c => rfl), hfind]
  rfl

/-- Each stream-loop iteration keeps the conversation as `base` plus one
trailing model message. -/
theorem processChunk_shape (cid : Nat) (isFirst : Bool) (sid : Nat)
    (st : StreamState) (ch : Chunk) (base : List ChatMsg)
    (h : lastIsModelShape st.store cid base) :
    lastIsModelShape (processChunk cid isFirst sid st ch).store cid base := by
  have hstep := processChunkTitle_store_cases cid isFirst st (st.acc ++ ch.text)
  have h1 : lastIsModelShape (processChunkTitle cid isFirst st (st.acc ++ ch.text)).1
      cid base := by
    rcases hstep with he | ⟨t, he⟩
    · rw [he]; exact h
    · rw [he]; exact lastIsModelShape_title_update st.store cid base t h
  obtain ⟨cv, lm, hfind, hmsgs, hrole⟩ := h1
  unfold processChunk
  dsimp only
  refine ⟨{ cv with messages := base ++
      [{ lm with
          content := (processChunkTitle cid isFirst st (st.acc ++ ch.text)).2.2
          isPlanning := false
          isGeneratingImage := false }] },
    { lm with
        content := (processChunkTitle cid isFirst st (st.acc ++ ch.text)).2.2
        isPlanning := false
        isGeneratingImage := false }, ?_, rfl, hrole⟩
  rw [findConv_updateConvMessages, hfind]
  simp [hmsgs, List.getLast?_concat, hrole, List.dropLast_concat]

/-- `getLast?` over a two-element tail. -/
theorem getLast?_append_two (x : List α) (a b : α) :
    (x ++ [a, b]).getLast? = some b := by
  rw [show x ++ [a, b] = (x ++ [a]) ++ [b] by simp, List.getLast?_concat]

/-- `dropLast` over a two-element tail. -/
theorem dropLast_append_two (x : List α) (a b : α) :
    (x ++ [a, b]).dropLast = x ++ [a] := by
  rw [show x ++ [a, b] = (x ++ [a]) ++ [b] by simp, List.dropLast_concat]

/-- The whole stream loop keeps the conversation as `base` plus one
trailing model message. -/
theorem foldl_processChunk_shape (cid : Nat) (isFirst : Bool) (sid : Nat)
    (chunks : List Chunk) (st : StreamState) (base : List ChatMsg)
    (h : lastIsModelShape st.store cid base) :
    lastIsModelShape
      (chunks.foldl (processChunk cid isFirst sid) st).store cid base := by
  induction chunks generalizing st with
  | nil => exact h
  | cons ch chs ih =>
      exact ih (processChunk cid isFirst sid st ch)
        (processChunk_shape cid isFirst sid st ch base h)

/-- On the responding path with a clean stream, the live conversation ends
as its previous messages, the appended user message, and one trailing
model message. -/
theorem handleSend_messages_shape (env : SendEnv) (live : List Conversation)
    (ids : SendIds) (orc : SendOracles) (prompt : String)
    (image : Option ImageData) (file : Option FileData) (cid : Nat)
    (cl : Conversation)
    (hactive : env.activeConversationId = some cid)
    (hguard : ((strTrim prompt == "" && image.isNone && file.isNone) ||
        env.isLoading || !env.hasApiKey) = false)
    (hedit : ((resolveToolOverride (planResponse orc.planRaw prompt image)
        env.selectedTool image).isImageEdit && image.isSome) = false)
    (hgen : (resolveToolOverride (planResponse orc.planRaw prompt image)
        env.selectedTool image).isImageGeneration = false)
    (hparts : (image.isNone && file.isNone && prompt == "") = false)
    (hstream : orc.streamError = none)
    (hlive : findConv live cid = some cl) :
    lastIsModelShape (handleSendMessage env live ids orc prompt image file).store
      cid (cl.messages ++
        [{ id := ids.userMsgId, role := .user, content := prompt
           image := image, file := file }]) := by
  unfold handleSendMessage
  simp only [hguard, hactive, hedit, hgen, hparts, hstream, Bool.and_false,
    Bool.false_eq_true, if_false]
  apply foldl_processChunk_shape
  refine ⟨{ cl with messages :=
      (cl.messages ++
        [{ id := ids.userMsgId, role := .user, content := prompt
           image := image, file := file }]) ++
      [{ id := ids.planningMsgId, role := .model, content := ""
         isPlanning := false
         thoughts := some (planResponse orc.planRaw prompt image).thoughts }] },
    { id := ids.planningMsgId, role := .model, content := ""
      isPlanning := false
      thoughts := some (planResponse orc.planRaw prompt image).thoughts },
    ?_, by simp, rfl⟩
  rw [findConv_updateConvMessages, findConv_updateConvMessages, hlive]
  simp [getLast?_append_two, dropLast_append_two]

/-- On the responding path, the history handed to the model session is the
`slice(-5, -1)` of the SNAPSHOT conversation (the closure state that
predates this turn's own appends). -/
theorem handleSend_historySent (env : SendEnv) (live : List Conversation)
    (ids : SendIds) (orc : SendOracles) (prompt : String)
    (image : Option ImageData) (file : Option FileData) (cid : Nat)
    (hactive : env.activeConversationId = some cid)
    (hguard : ((strTrim prompt == "" && image.isNone && file.isNone) ||
        env.isLoading || !env.hasApiKey) = false)
    (hedit : ((resolveToolOverride (planResponse orc.planRaw prompt image)
        env.selectedTool image).isImageEdit && image.isSome) = false)
    (hgen : (resolveToolOverride (planResponse orc.planRaw prompt image)
        env.selectedTool image).isImageGeneration = false)
    (hparts : (image.isNone && file.isNone && prompt == "") = false)
    (hstream : orc.streamError = none) :
    (handleSendMessage env live ids orc prompt image file).historySent =
      some (transformMessagesToHistory
        (match findConv env.conversations cid with
         | some c => jsSlice c.messages (-5) (-1)
         | none => [])) := by
  unfold handleSendMessage
  simp only [hguard, hactive, hedit, hgen, hparts, hstream]
  simp [hedit, hgen]

/-- On the responding path, the summarization decision and arguments come
from the SNAPSHOT conversation. -/
theorem handleSend_enrichment_summarize (env : SendEnv)
    (live : List Conversation) (ids : SendIds) (orc : SendOracles)
    (prompt : String) (image : Option ImageData) (file : Option FileData)
    (cid : Nat)
    (hactive : env.activeConversationId = some cid)
    (hguard : ((strTrim prompt == "" && image.isNone && file.isNone) ||
        env.isLoading || !env.hasApiKey) = false)
    (hedit : ((resolveToolOverride (planResponse orc.planRaw prompt image)
        env.selectedTool image).isImageEdit && image.isSome) = false)
    (hgen : (resolveToolOverride (planResponse orc.planRaw prompt image)
        env.selectedTool image).isImageGeneration = false)
    (hparts : (image.isNone && file.isNone && prompt == "") = false)
    (hstream : orc.streamError = none) :
    (handleSendMessage env live ids orc prompt image file).enrichment.map
        (fun er => er.summarize) =
      (findConv env.conversations cid).map
        (fun c =>
          if c.messages.length > 1 && c.messages.length % 6 == 0 then
            some { history :=
                     transformMessagesToHistory (jsSliceFrom c.messages (-6))
                   previousSummary := c.summary }
          else none) := by
  unfold handleSendMessage
  simp only [hguard, hactive, hedit, hgen, hparts, hstream, Bool.and_false,
    Bool.false_eq_true, if_false]
  cases hfc : findConv env.conversations cid <;>
    simp [hfc, scheduleEnrichment]

/-- `slice(-5, -1)` drops the last element and keeps the four before it. -/
theorem jsSlice_neg5_neg1 (l : List α) :
    jsSlice l (-5) (-1) = l.dropLast.drop (l.dropLast.length - 4) := by
  have hs : jsIndex l.length (-5) = l.length - 5 := by
    unfold jsIndex
    rw [if_pos (by norm_num)]
    omega
  have he : jsIndex l.length (-1) = l.length - 1 := by
    unfold jsIndex
    rw [if_pos (by norm_num)]
    omega
  unfold jsSlice
  rw [hs, he, List.take_drop, List.dropLast_eq_take, List.length_take]
  have h1 : (l.length - 5) + ((l.length - 1) - (l.length - 5)) = l.length - 1 := by
    omega
  have h2 : min (l.length - 1) l.length - 4 = l.length - 5 := by omega
  rw [h1, h2]

/-! ## Claim theorems -/

/-- C4: whenever the planner capability throws or returns unparseable
output, `planResponse` returns (never throws) the conservative fallback
plan: `needsWebSearch = true`, `needsThinking = false`,
`needsCodeContext = true`, image flags inferred from the
generate/create prompt keywords and the presence of an attached image,
and an empty reasoning-steps list. -/
theorem c4_planner_fallback_conservative (e prompt : String)
    (image : Option ImageData) :
    planResponse (.error e) prompt image =
      { needsWebSearch := true
        needsThinking := false
        needsCodeContext := true
        isImageGenerationRequest :=
          image.isNone &&
            (strIncludes (strToLower prompt) "generate" ||
             strIncludes (strToLower prompt) "create")
        isImageEditRequest := image.isSome
        thoughts := [] } := by
  simp [planResponse, fallbackPlan]

/-- C3 (counterexample): a plan with `needsWebSearch = true` does NOT
always make the orchestrator's effective `needsThinking` false — when the
user pinned the thinking tool, the override sets it to true (while
forcing web search off instead). -/
theorem c3_counterexample :
    (planResponse (.ok { planAllFalse with needsWebSearch := true, needsThinking := true })
        "hello" none).needsWebSearch = true ∧
    (resolveToolOverride
        (planResponse (.ok { planAllFalse with needsWebSearch := true, needsThinking := true })
          "hello" none)
        Tool.thinking none).isThinkingEnabled = true := by
  decide

/-- C3 (amended): every plan `planResponse` returns with
`needsWebSearch = true` has `needsThinking = false` and empty `thoughts`,
regardless of the planner's raw output; the orchestrator's effective
`needsThinking` is then false for every pinned tool except `thinking`
(which instead forces web search off); and in all cases web search and a
non-empty thinking narrative are never simultaneously enabled. -/
theorem c3_web_search_thinking_exclusivity (raw : Except String RawPlan)
    (prompt : String) (image : Option ImageData) (tool : Tool) :
    ((planResponse raw prompt image).needsWebSearch = true →
      (planResponse raw prompt image).needsThinking = false ∧
      (planResponse raw prompt image).thoughts = []) ∧
    (tool ≠ Tool.thinking →
      (planResponse raw prompt image).needsWebSearch = true →
      (resolveToolOverride (planResponse raw prompt image) tool image).isThinkingEnabled
        = false) ∧
    ¬((resolveToolOverride (planResponse raw prompt image) tool image).isWebSearchEnabled
          = true ∧
      (resolveToolOverride (planResponse raw prompt image) tool image).isThinkingEnabled
          = true ∧
      (planResponse raw prompt image).thoughts ≠ []) := by
  refine ⟨planResponse_webSearch_forces_noThinking raw prompt image, ?_, ?_⟩
  · intro ht hw
    cases tool with
    | smart =>
        simpa [resolveToolOverride] using
          (planResponse_webSearch_forces_noThinking raw prompt image hw).1
    | webSearch => simp [resolveToolOverride]
    | thinking => exact absurd rfl ht
    | imageGeneration => simp [resolveToolOverride]
  · rintro ⟨hw, hthink, hth⟩
    cases tool with
    | smart =>
        have h1 := (planResponse_webSearch_forces_noThinking raw prompt image
          (by simpa [resolveToolOverride] using hw)).1
        simp [resolveToolOverride, h1] at hthink
    | webSearch => simp [resolveToolOverride] at hthink
    | thinking => simp [resolveToolOverride] at hw
    | imageGeneration => simp [resolveToolOverride] at hthink

/-- C3 witness: concrete discharge of the amended exclusivity at a raw
plan requesting both web search and thinking, under the default tool. -/
theorem c3_web_search_thinking_exclusivity_witness :
    (planResponse (.ok { planAllFalse with needsWebSearch := true, needsThinking := true })
        "x" none).needsThinking = false ∧
    (resolveToolOverride
        (planResponse (.ok { planAllFalse with needsWebSearch := true, needsThinking := true })
          "x" none)
        Tool.smart none).isThinkingEnabled = false :=
  ⟨((c3_web_search_thinking_exclusivity
      (.ok { planAllFalse with needsWebSearch := true, needsThinking := true })
      "x" none Tool.smart).1 (by decide)).1,
   (c3_web_search_thinking_exclusivity
      (.ok { planAllFalse with needsWebSearch := true, needsThinking := true })
      "x" none Tool.smart).2.1 (by decide) (by decide)⟩

/-- C6 (counterexample): on `"```js\nconsole.log(1)\n```"` the code-block
regex captures `"console.log(1)\n"` — the newline before the closing
fence is part of the lazy `([\s\S]*?)` group — so the extracted code is
not exactly `"console.log(1)"`. -/
theorem c6_counterexample :
    extractCodeBlocks "```js\nconsole.log(1)\n```" ≠ [("js", "console.log(1)")] := by
  decide

/-- C6 (amended): the code-block regex applied to
`"```js\nconsole.log(1)\n```"` yields exactly one snippet, with language
`"js"` and code `"console.log(1)\n"` (trailing newline included). -/
theorem c6_code_block_extraction :
    extractCodeBlocks "```js\nconsole.log(1)\n```" = [("js", "console.log(1)\n")] := by
  decide

/-- C5 (counterexample): the appended batch is only filtered against the
pre-existing LTM, not against itself, so an extraction list with an
internal duplicate leaves two exactly duplicate entries in the LTM. -/
theorem c5_counterexample :
    (applyMemoryExtraction ["User's name is Alex"]
        ["User likes tea", "User likes tea"]).ltm =
      ["User's name is Alex", "User likes tea", "User likes tea"] ∧
    ¬ (applyMemoryExtraction ["User's name is Alex"]
        ["User likes tea", "User likes tea"]).ltm.Nodup := by
  decide

/-- C5 (amended): the extraction job appends only facts not already
present verbatim in the turn's LTM, never rewrites or removes existing
entries (they remain a prefix), and preserves duplicate-freedom provided
the extraction list itself has no internal duplicates; in particular the
Alex/tea example appends exactly `"User likes tea"`. -/
theorem c5_ltm_dedup (ltm news : List String) :
    List.IsPrefix ltm (applyMemoryExtraction ltm news).ltm ∧
    (∀ m ∈ (applyMemoryExtraction ltm news).ltm,
      m ∈ ltm ∨ (m ∈ news ∧ m ∉ ltm)) ∧
    (ltm.Nodup → news.Nodup → (applyMemoryExtraction ltm news).ltm.Nodup) ∧
    (applyMemoryExtraction ["User's name is Alex"]
        ["User's name is Alex", "User likes tea"]).ltm =
      ["User's name is Alex", "User likes tea"] := by
  have hnotmem : ∀ m : String, (!ltm.contains m) = true → m ∉ ltm := by
    intro m hpred
    simp [List.contains, List.elem_iff] at hpred
    exact hpred
  have hcases : (applyMemoryExtraction ltm news).ltm = ltm ∨
      (applyMemoryExtraction ltm news).ltm =
        ltm ++ news.filter (fun mem => !ltm.contains mem) := by
    unfold applyMemoryExtraction
    dsimp only
    split
    · split
      · exact Or.inr rfl
      · exact Or.inl rfl
    · exact Or.inl rfl
  refine ⟨?_, ?_, ?_, by decide⟩
  · rcases hcases with h | h
    · rw [h]
    · rw [h]
      exact ⟨_, rfl⟩
  · intro m hm
    rcases hcases with h | h <;> rw [h] at hm
    · exact Or.inl hm
    · rcases List.mem_append.1 hm with h1 | h2
      · exact Or.inl h1
      · have := List.mem_filter.1 h2
        exact Or.inr ⟨this.1, hnotmem m this.2⟩
  · intro h1 h2
    rcases hcases with h | h <;> rw [h]
    · exact h1
    · refine List.Nodup.append h1 (h2.filter _) ?_
      intro a ha hafil
      exact hnotmem a (List.mem_filter.1 hafil).2 ha

/-- C5 witness: the conditional duplicate-freedom of the amended claim,
discharged on a concrete duplicate-free LTM and extraction list. -/
theorem c5_ltm_dedup_witness :
    (applyMemoryExtraction ["User's name is Alex"] ["User likes tea"]).ltm.Nodup :=
  (c5_ltm_dedup ["User's name is Alex"] ["User likes tea"]).2.2.1
    (by decide) (by decide)

/-- C1 (counterexample): when the last message is a user message, the
error handler does append a new assistant message with the error text,
but it does NOT leave the user message's content unchanged — the same
updater first overwrites that user message's content with the error
string. -/
theorem c1_counterexample :
    catchUpdateMessages [uMsg 1 "hello"] 9
        "An unexpected error occurred. Please try again later." =
      [{ uMsg 1 "hello" with
          content :=
            "Sorry, I encountered an error: An unexpected error occurred. Please try again later." },
       mMsg 9
         "Sorry, I encountered an error: An unexpected error occurred. Please try again later."] ∧
    ¬ ((catchUpdateMessages [uMsg 1 "hello"] 9
          "An unexpected error occurred. Please try again later.").get? 0 =
        some (uMsg 1 "hello")) := by
  decide

/-- C1 (amended): when an exception is caught while the conversation's
last message has role user, the handler overwrites that user message's
content with the user-facing error text (clearing the transient flags)
AND appends a new assistant message carrying the same error text. -/
theorem c1_error_overwrites_and_appends (prev : List ChatMsg)
    (last : ChatMsg) (newId : Nat) (friendly : String)
    (hlast : prev.getLast? = some last) (hrole : last.role = .user) :
    catchUpdateMessages prev newId friendly =
      prev.dropLast ++
        [{ last with
            isPlanning := false
            isGeneratingImage := false
            isEditingImage := false
            content := "Sorry, I encountered an error: " ++ friendly },
         { id := newId, role := .model
           content := "Sorry, I encountered an error: " ++ friendly }] := by
  simp [catchUpdateMessages, hlast, hrole]

/-- C1 witness: the amended statement at a one-user-message conversation. -/
theorem c1_error_overwrites_and_appends_witness :
    catchUpdateMessages [uMsg 1 "hello"] 9 "boom" =
      [{ uMsg 1 "hello" with content := "Sorry, I encountered an error: boom" },
       { id := 9, role := .model
         content := "Sorry, I encountered an error: boom" }] := by
  rw [c1_error_overwrites_and_appends [uMsg 1 "hello"] (uMsg 1 "hello") 9 "boom"
    (by decide) (by decide)]
  decide

/-- C9: `handleSendMessage` returns with no state change whatsoever — no
conversation created, no message appended, no flag mutated, nothing
scheduled — whenever the prompt is blank with no image and no file, or a
turn is already in flight (`isLoading`), or no API credential is
configured; in particular a send while loading is a no-op, so at most one
turn is in flight at a time. -/
theorem c9_guard_rejects_without_state_change (env : SendEnv)
    (live : List Conversation) (ids : SendIds) (orc : SendOracles)
    (prompt : String) (image : Option ImageData) (file : Option FileData)
    (h : (strTrim prompt = "" ∧ image = none ∧ file = none) ∨
         env.isLoading = true ∨ env.hasApiKey = false) :
    handleSendMessage env live ids orc prompt image file =
      unchangedOutcome env live := by
  have hc : ((strTrim prompt == "" && image.isNone && file.isNone) ||
      env.isLoading || !env.hasApiKey) = true := by
    rcases h with ⟨h1, h2, h3⟩ | hL | hK
    · simp [h1, h2, h3]
    · simp [hL]
    · simp [hK]
  unfold handleSendMessage
  simp only [hc, if_true]

/-- C9 witness: a whitespace-only prompt with no attachment is rejected. -/
theorem c9_guard_witness :
    handleSendMessage env2 [conv2] testIds (plainOracles "x") "   " none none =
      unchangedOutcome env2 [conv2] :=
  c9_guard_rejects_without_state_change env2 [conv2] testIds
    (plainOracles "x") "   " none none (Or.inl ⟨by decide, rfl, rfl⟩)

/-- C2 (counterexample): on a six-message conversation the history sent
to the session is messages 2–5 of the pre-turn snapshot — `slice(-5,-1)`
drops the most recent real message (`"a3"`) — not the trailing four. -/
theorem c2_counterexample :
    (handleSendMessage env6 [conv6] testIds (plainOracles "reply")
        "next" none none).historySent =
      some (transformMessagesToHistory
        [mMsg 2 "a1", uMsg 3 "q2", mMsg 4 "a2", uMsg 5 "q3"]) ∧
    (handleSendMessage env6 [conv6] testIds (plainOracles "reply")
        "next" none none).historySent ≠
      some (transformMessagesToHistory
        [uMsg 3 "q2", mMsg 4 "a2", uMsg 5 "q3", mMsg 6 "a3"]) := by
  decide

/-- C2 (amended): the history sent to the model session is computed from
the conversation SNAPSHOT captured before the turn appended its user
message and placeholder (so that pair is excluded), and it consists of
the snapshot's messages at positions `len-5 … len-2` (`slice(-5,-1)`):
the trailing four AFTER dropping the snapshot's last message, not the
trailing four themselves. -/
theorem c2_history_window (env : SendEnv) (live : List Conversation)
    (ids : SendIds) (orc : SendOracles) (prompt : String)
    (image : Option ImageData) (file : Option FileData) (cid : Nat)
    (hactive : env.activeConversationId = some cid)
    (hguard : ((strTrim prompt == "" && image.isNone && file.isNone) ||
        env.isLoading || !env.hasApiKey) = false)
    (hedit : ((resolveToolOverride (planResponse orc.planRaw prompt image)
        env.selectedTool image).isImageEdit && image.isSome) = false)
    (hgen : (resolveToolOverride (planResponse orc.planRaw prompt image)
        env.selectedTool image).isImageGeneration = false)
    (hparts : (image.isNone && file.isNone && prompt == "") = false)
    (hstream : orc.streamError = none) :
    (handleSendMessage env live ids orc prompt image file).historySent =
      some (transformMessagesToHistory
        (match findConv env.conversations cid with
         | some c => c.messages.dropLast.drop (c.messages.dropLast.length - 4)
         | none => [])) := by
  rw [handleSend_historySent env live ids orc prompt image file cid hactive
    hguard hedit hgen hparts hstream]
  cases hfc : findConv env.conversations cid <;> simp [hfc, jsSlice_neg5_neg1]

/-- C2 witness: the amended window on the six-message fixture. -/
theorem c2_history_window_witness :
    (handleSendMessage env6 [conv6] testIds (plainOracles "r")
        "next" none none).historySent =
      some (transformMessagesToHistory
        (match findConv env6.conversations 1 with
         | some c => c.messages.dropLast.drop (c.messages.dropLast.length - 4)
         | none => [])) :=
  c2_history_window env6 [conv6] testIds (plainOracles "r") "next" none none 1
    (by decide) (by decide) (by decide) (by decide) (by decide) rfl

/-- C7 (counterexample): a turn on a six-message conversation: the
summarization job RAN — the pre-turn snapshot count 6 is a multiple of
6 — and was passed the six pre-turn messages, yet the FINAL conversation
has 8 messages (not a multiple of 6), and the last six messages of the
final state differ from what was passed; both the trigger condition and
the message source of the claim fail on the final state. -/
theorem c7_counterexample :
    (handleSendMessage env6 [conv6] testIds (plainOracles "Hello")
        "q4" none none).enrichment.map (fun er => er.summarize) =
      some (some { history := transformMessagesToHistory conv6.messages
                   previousSummary := none }) ∧
    ((findConv (handleSendMessage env6 [conv6] testIds (plainOracles "Hello")
        "q4" none none).store 1).map (fun c => c.messages.length)) = some 8 ∧
    ¬ ((8 : Nat) % 6 = 0) ∧
    ((findConv (handleSendMessage env6 [conv6] testIds (plainOracles "Hello")
        "q4" none none).store 1).map
      (fun c => transformMessagesToHistory (jsSliceFrom c.messages (-6)))) ≠
      some (transformMessagesToHistory conv6.messages) := by
  decide

/-- C7 (amended): after a successful responding turn the conversation has
grown by exactly two messages, but the background summarization decision
is keyed off the SNAPSHOT conversation captured before the turn (which
lacks those two messages): it runs iff the snapshot's count is >1 and a
multiple of 6, passing the snapshot's last six messages plus the previous
summary; its completion overwrites the conversation's summary field. -/
theorem c7_summarization (env : SendEnv) (live : List Conversation)
    (ids : SendIds) (orc : SendOracles) (prompt : String)
    (image : Option ImageData) (file : Option FileData) (cid : Nat)
    (cl csnap : Conversation)
    (hactive : env.activeConversationId = some cid)
    (hguard : ((strTrim prompt == "" && image.isNone && file.isNone) ||
        env.isLoading || !env.hasApiKey) = false)
    (hedit : ((resolveToolOverride (planResponse orc.planRaw prompt image)
        env.selectedTool image).isImageEdit && image.isSome) = false)
    (hgen : (resolveToolOverride (planResponse orc.planRaw prompt image)
        env.selectedTool image).isImageGeneration = false)
    (hparts : (image.isNone && file.isNone && prompt == "") = false)
    (hstream : orc.streamError = none)
    (hlive : findConv live cid = some cl)
    (hsnap : findConv env.conversations cid = some csnap) :
    (∃ cv, findConv (handleSendMessage env live ids orc prompt image file).store
        cid = some cv ∧ cv.messages.length = cl.messages.length + 2) ∧
    (handleSendMessage env live ids orc prompt image file).enrichment.map
        (fun er => er.summarize) =
      some (if csnap.messages.length > 1 && csnap.messages.length % 6 == 0 then
              some { history :=
                       transformMessagesToHistory (jsSliceFrom csnap.messages (-6))
                     previousSummary := csnap.summary }
            else none) ∧
    (∀ (store : List Conversation) (s : String) (cv : Conversation),
      findConv store cid = some cv →
      findConv (applySummarizeResult store cid s) cid =
        some { cv with summary := some s }) := by
  refine ⟨?_, ?_, ?_⟩
  · obtain ⟨cv, lm, hf, hm, _⟩ := handleSend_messages_shape env live ids orc
      prompt image file cid cl hactive hguard hedit hgen hparts hstream hlive
    refine ⟨cv, hf, ?_⟩
    rw [hm]
    simp
  · rw [handleSend_enrichment_summarize env live ids orc prompt image file cid
      hactive hguard hedit hgen hparts hstream, hsnap]
    rfl
  · intro store s cv hcv
    unfold applySummarizeResult
    rw [findConv_updateConv_of_id store cid
      (fun c => { c with summary := some s }) (fun c => rfl), hcv]
    rfl

/-- C7 witness: the amended statement's growth clause on the six-message
fixture. -/
theorem c7_summarization_witness :
    ∃ cv, findConv (handleSendMessage env6 [conv6] testIds
        (plainOracles "Hi") "q4" none none).store 1 = some cv ∧
      cv.messages.length = conv6.messages.length + 2 :=
  (c7_summarization env6 [conv6] testIds (plainOracles "Hi") "q4" none none 1
    conv6 conv6 (by decide) (by decide) (by decide) (by decide) (by decide)
    rfl (by decide) (by decide)).1

/-- `slice(0, k)` with a non-negative stop index is `take k`. -/
theorem jsSlice_zero_natCast (l : List α) (k : Nat) :
    jsSlice l 0 (k : Int) = l.take k := by
  unfold jsSlice jsIndex
  rw [if_neg (by omega), if_neg (by omega)]
  simp only [Int.toNat_ofNat, Int.toNat_zero]
  simp only [Nat.min_zero, Nat.zero_min, List.drop_zero, Nat.sub_zero]
  rw [List.take_eq_take]
  omega


/-- `findLastIndex(role === 'model')` on a list ending in user+model finds
the final model message. -/
theorem findLastModelIdx_concat_model (T : List ChatMsg) (u m : ChatMsg)
    (hm : m.role = .model) :
    findLastModelIdx (T ++ [u, m]) = some (T.length + 1) := by
  unfold findLastModelIdx
  have hlen : (T ++ [u, m]).length = (T.length + 1) + 1 := by simp
  rw [hlen, List.range_succ, List.reverse_append]
  simp only [List.reverse_cons, List.reverse_nil, List.nil_append,
    List.singleton_append]
  rw [List.find?_cons]
  have hget : (T ++ [u, m])[T.length + 1]? = some m := by
    rw [List.getElem?_append_right (by omega)]
    simp
  simp [hget, hm]

/-- C8 (amended): Retry locates the most recent assistant message; when
the message immediately before it is a user message it truncates to just
before that assistant message (`slice(0, i)` keeps the user message) and
resubmits that user message's byte-identical content and attachments;
otherwise it is a no-op.  Because the resubmission APPENDS a fresh copy of
the user message, a completed retried turn has shape
`kept-prefix ++ [user-copy, answer]`, so a second Retry resubmits
byte-identical content but truncates to a boundary one user message
longer than the first (`kept-prefix ++ [user-copy]`), not the same
boundary. -/
theorem c8_retry :
    (∀ (msgs : List ChatMsg) (i : Nat) (u : ChatMsg),
      findLastModelIdx msgs = some i → i ≠ 0 →
      msgs[i - 1]? = some u → u.role = .user →
      retryAction msgs =
        some { lastModelMessageIndex := i, content := u.content
               image := u.image, file := u.file } ∧
      retryTruncate msgs
        { lastModelMessageIndex := i, content := u.content
          image := u.image, file := u.file } = msgs.take i) ∧
    (∀ (msgs : List ChatMsg), findLastModelIdx msgs = none →
      retryAction msgs = none) ∧
    (∀ (msgs : List ChatMsg) (i : Nat) (u : ChatMsg),
      findLastModelIdx msgs = some i → i ≠ 0 →
      msgs[i - 1]? = some u → u.role = .model →
      retryAction msgs = none) ∧
    (∀ (T : List ChatMsg) (u m : ChatMsg), u.role = .user → m.role = .model →
      retryAction (T ++ [u, m]) =
        some { lastModelMessageIndex := T.length + 1, content := u.content
               image := u.image, file := u.file } ∧
      retryTruncate (T ++ [u, m])
        { lastModelMessageIndex := T.length + 1, content := u.content
          image := u.image, file := u.file } = T ++ [u]) := by
  have hne : ∀ (msgs : List ChatMsg) (i : Nat),
      findLastModelIdx msgs = some i → (msgs.length == 0) = false := by
    intro msgs i hfind
    cases msgs with
    | nil => simp [findLastModelIdx] at hfind
    | cons a as => simp
  refine ⟨?_, ?_, ?_, ?_⟩
  · intro msgs i u hfind hi hget hrole
    constructor
    · unfold retryAction
      rw [hne msgs i hfind]
      simp [hfind, hi, hget, hrole]
    · unfold retryTruncate
      exact jsSlice_zero_natCast msgs i
  · intro msgs h
    unfold retryAction
    cases msgs with
    | nil => rfl
    | cons a as => simp [h]
  · intro msgs i u hfind hi hget hrole
    unfold retryAction
    rw [hne msgs i hfind]
    simp [hfind, hi, hget, hrole]
  · intro T u m hu hm
    have hfind := findLastModelIdx_concat_model T u m hm
    have hget : (T ++ [u, m])[T.length]? = some u := by
      rw [List.getElem?_append_right (by omega)]
      simp
    refine ⟨?_, ?_⟩
    · unfold retryAction
      rw [hne _ _ hfind]
      simp [hfind, hget, hu]
    · unfold retryTruncate
      rw [jsSlice_zero_natCast]
      rw [show T ++ [u, m] = (T ++ [u]) ++ [m] by simp]
      exact List.take_left' (by simp)


/-- C8 (counterexample): starting from `[user "hi", model answer]`, the
first Retry truncates to `[user "hi"]`; after that retried turn completes
the conversation is `[user "hi", user "hi" (copy), answer]` (computed by
running the full retry pipeline), and a second Retry truncates to
`[user "hi", user "hi" (copy)]` — a different boundary than the first. -/
theorem c8_counterexample :
    (retryAction conv2.messages).map (fun a => retryTruncate conv2.messages a) =
      some [uMsg 1 "hi"] ∧
    ((findConv (handleRetryTurn env2 testIds (plainOracles "second answer")).store 1).map
        (fun c => (retryAction c.messages).map
          (fun a => retryTruncate c.messages a))) =
      some (some [uMsg 1 "hi",
        { id := testIds.userMsgId, role := .user, content := "hi" }]) ∧
    ([uMsg 1 "hi"] : List ChatMsg) ≠
      [uMsg 1 "hi", { id := testIds.userMsgId, role := .user, content := "hi" }] := by
  decide

/-- C8 witness: the truncate-and-resubmit clause on the one-turn
conversation. -/
theorem c8_retry_witness :
    retryAction conv2.messages =
      some { lastModelMessageIndex := 1, content := "hi"
             image := none, file := none } ∧
    retryTruncate conv2.messages
      { lastModelMessageIndex := 1, content := "hi"
        image := none, file := none } = conv2.messages.take 1 :=
  (c8_retry).1 conv2.messages 1 (uMsg 1 "hi") (by decide) (by decide)
    (by decide) rfl

/-- `slice(0, -1)` drops the last element. -/
theorem jsSlice_zero_neg1 (l : List α) : jsSlice l 0 (-1) = l.dropLast := by
  unfold jsSlice jsIndex
  rw [if_neg (by omega), if_pos (by omega)]
  simp only [Int.toNat_zero, Nat.zero_min, Nat.min_zero, List.drop_zero,
    Nat.sub_zero, List.dropLast_eq_take]
  congr 1
  omega

/-- C10: a turn resolved to the image-generation path on a conversation
with zero prior messages sets the conversation's title to the fixed
string `"Image Generation"` at plan-resolution time, opens the
options-collection step with the stashed prompt, never opens a model
session (so no streamed `TITLE:` directive is ever extracted), and leaves
the conversation holding just the user message; and the confirmed
generation action sets the same fixed title again whenever the
conversation is empty at confirmation time. -/
theorem c10_image_generation_title (env : SendEnv) (ids : SendIds)
    (orc : SendOracles) (prompt : String) (image : Option ImageData)
    (file : Option FileData) (cid : Nat) (c : Conversation)
    (hactive : env.activeConversationId = some cid)
    (hguard : ((strTrim prompt == "" && image.isNone && file.isNone) ||
        env.isLoading || !env.hasApiKey) = false)
    (hfind : findConv env.conversations cid = some c)
    (hempty : c.messages = [])
    (hedit : ((resolveToolOverride (planResponse orc.planRaw prompt image)
        env.selectedTool image).isImageEdit && image.isSome) = false)
    (hgen : (resolveToolOverride (planResponse orc.planRaw prompt image)
        env.selectedTool image).isImageGeneration = true) :
    (handleSendMessage env env.conversations ids orc prompt image file).imageOptionsOpened
        = true ∧
    (handleSendMessage env env.conversations ids orc prompt image file).imageGenPrompt
        = some prompt ∧
    (handleSendMessage env env.conversations ids orc prompt image file).historySent
        = none ∧
    findConv (handleSendMessage env env.conversations ids orc prompt image file).store
        cid =
      some { c with
              title := "Image Generation"
              messages := [{ id := ids.userMsgId, role := .user, content := prompt
                             image := image, file := file }] } ∧
    (∀ (convs : List Conversation) (cid2 : Nat) (c2 : Conversation)
        (count msgId : Nat) (imgs : List String),
      findConv convs cid2 = some c2 → c2.messages = [] →
      findConv (handleExecuteImageGeneration true (some cid2) convs count msgId
          (.ok imgs)).store cid2 =
        some { c2 with
                title := "Image Generation"
                messages := [{ id := msgId, role := .model, content := ""
                               isGeneratingImage := false
                               generatedImagesBase64 := some imgs
                               imageGenerationCount := some count }] }) := by
  have hfirst : ((findConv env.conversations cid).map
      (fun cc => cc.messages.length == 0)).getD false = true := by
    rw [hfind]
    simp [hempty]
  refine ⟨?_, ?_, ?_, ?_, ?_⟩
  · unfold handleSendMessage
    simp only [hguard, hactive, hedit, hgen, hfirst, Bool.false_eq_true,
      if_false, Bool.and_self, if_true]
  · unfold handleSendMessage
    simp only [hguard, hactive, hedit, hgen, hfirst, Bool.false_eq_true,
      if_false, Bool.and_self, if_true]
  · unfold handleSendMessage
    simp only [hguard, hactive, hedit, hgen, hfirst, Bool.false_eq_true,
      if_false, Bool.and_self, if_true]
  · unfold handleSendMessage
    simp only [hguard, hactive, hedit, hgen, hfirst, Bool.false_eq_true,
      if_false, Bool.and_self, if_true]
    rw [findConv_updateConvMessages]
    rw [findConv_updateConv_of_id _ _
      (fun cc => { cc with title := "Image Generation" }) (fun cc => rfl)]
    rw [findConv_updateConvMessages, hfind]
    simp [hempty, jsSlice_zero_neg1]
  · intro convs cid2 c2 count msgId imgs hfind2 hempty2
    unfold handleExecuteImageGeneration
    have hsgt : ((findConv convs cid2).map
        (fun cc => cc.messages.length == 0)).getD false = true := by
      rw [hfind2]
      simp [hempty2]
    simp only [hsgt, if_true]
    rw [findConv_updateConv_of_id _ _
      (fun cc => { cc with title := "Image Generation" }) (fun cc => rfl)]
    rw [findConv_updateConvMessages, findConv_updateConvMessages, hfind2]
    simp [hempty2, setLastMsg]


/-- C10 witness: both clauses on a fresh empty conversation. -/
theorem c10_image_generation_title_witness :
    (handleSendMessage envEmpty envEmpty.conversations testIds genOracles
        "draw a cat" none none).imageOptionsOpened = true ∧
    findConv (handleSendMessage envEmpty envEmpty.conversations testIds
        genOracles "draw a cat" none none).store 1 =
      some { convEmpty with
              title := "Image Generation"
              messages := [{ id := testIds.userMsgId, role := .user
                             content := "draw a cat" }] } ∧
    findConv (handleExecuteImageGeneration true (some 1) [convEmpty] 2 77
        (.ok ["img1"])).store 1 =
      some { convEmpty with
              title := "Image Generation"
              messages := [{ id := 77, role := .model, content := ""
                             isGeneratingImage := false
                             generatedImagesBase64 := some ["img1"]
                             imageGenerationCount := some 2 }] } := by
  have h := c10_image_generation_title envEmpty testIds genOracles
    "draw a cat" none none 1 convEmpty rfl (by decide) (by decide) rfl
    (by decide) (by decide)
  exact ⟨h.1, h.2.2.2.1,
    h.2.2.2.2 [convEmpty] 1 convEmpty 2 77 ["img1"] (by decide) rfl⟩

end Kalina
